import Mathlib

-- Shallow embedding of the prometheus-enviro-exporter sensor pipeline.
-- Python dicts holding metric values are modelled as association lists from
-- String keys to rational values; each hardware read is modelled by an
-- outcome datum passed to the adapter; log and bus-reset side effects are
-- modelled as explicit event lists.

abbrev Values := List (String × ℚ)

def setValue : Values → String → ℚ → Values
  | [], k, v => [(k, v)]
  | (k', v') :: rest, k, v =>
    if k' = k then (k, v) :: rest else (k', v') :: setValue rest k v

def getValue? : Values → String → Option ℚ
  | [], _ => none
  | (k', v) :: rest, k => if k' = k then some v else getValue? rest k

def hasKey (m : Values) (k : String) : Bool :=
  (getValue? m k).isSome

inductive LogLevel
  | info
  | warning
  | error
  deriving DecidableEq

inductive Event
  | log (level : LogLevel) (msg : String)
  | resetI2C
  deriving DecidableEq

-- Models sensors.hw._reset_i2c: an info log followed by the blocking bus rescan.
def _reset_i2c : List Event :=
  [ Event.log LogLevel.info "Resetting I2C.", Event.resetI2C ]

def Event.isWarningLog : Event → Bool
  | Event.log LogLevel.warning _ => true
  | _ => false

def Event.isErrorLog : Event → Bool
  | Event.log LogLevel.error _ => true
  | _ => false

structure UpdateResult where
  values : Values
  ok : Bool
  events : List Event

abbrev SensorUpdate := Values → UpdateResult

-- Average of the five CPU temperature samples taken in sensors.hw.
def avg_cpu_temp (cpu : ℕ → ℚ) : ℚ :=
  (cpu 0 + cpu 1 + cpu 2 + cpu 3 + cpu 4) / 5

-- Compensation formula of sensors/hw.py line 53.
def bme280_compensation (temperature avg factor : ℚ) : ℚ :=
  (temperature - avg * factor) / (1 - factor)

-- Compensation formula of enviroplus_exporter.py line 113.
def update_weather_sensor_compensation (temperature avg factor : ℚ) : ℚ :=
  temperature - ((avg - temperature) / factor)

inductive BME280Outcome
  | reading (temperature pressure humidity : ℚ)
  | ioError

def BME280Sensor.update (temperature_factor : Option ℚ) (cpu : ℕ → ℚ)
    (o : BME280Outcome) : SensorUpdate := fun values =>
  match o with
  | BME280Outcome.reading temperature pressure humidity =>
    let temperature :=
      match temperature_factor with
      | none => temperature
      | some f =>
        if f = 0 then temperature
        else bme280_compensation temperature (avg_cpu_temp cpu) f
    { values := setValue (setValue (setValue values
        "temperature_celsius" temperature)
        "pressure_pascals" (pressure * 100))
        "relative_humidity" (humidity / 100),
      ok := true, events := [] }
  | BME280Outcome.ioError =>
    { values := values, ok := false,
      events := Event.log LogLevel.error
        "Could not get BME280 weather readings. Resetting I2C." :: _reset_i2c }

inductive LTR559Outcome
  | reading (lux proximity : ℚ)
  | ioError

def LTR559Sensor.update (o : LTR559Outcome) : SensorUpdate := fun values =>
  match o with
  | LTR559Outcome.reading lux proximity =>
    { values := setValue (setValue values "light_lux" lux) "proximity_raw" proximity,
      ok := true, events := [] }
  | LTR559Outcome.ioError =>
    { values := values, ok := false,
      events := Event.log LogLevel.error
        "Could not get LTR559 light readings. Resetting I2C." :: _reset_i2c }

inductive MICS6814Outcome
  | reading (reducing oxidising nh3 : ℚ)
  | ioError

def MICS6814Sensor.update (o : MICS6814Outcome) : SensorUpdate := fun values =>
  match o with
  | MICS6814Outcome.reading reducing oxidising nh3 =>
    { values := setValue (setValue (setValue values
        "gas_red_ohms" reducing) "gas_ox_ohms" oxidising) "gas_nh3_ohms" nh3,
      ok := true, events := [] }
  | MICS6814Outcome.ioError =>
    { values := values, ok := false,
      events := Event.log LogLevel.error
        "Could not get MICS6814 gas readings. Resetting I2C." :: _reset_i2c }

inductive PMS5003Outcome
  | reading (pm1 pm25 pm10 : ℚ)
  | readTimeout
  | ioError

def PMS5003Sensor.update (o : PMS5003Outcome) : SensorUpdate := fun values =>
  match o with
  | PMS5003Outcome.reading pm1 pm25 pm10 =>
    { values := setValue (setValue (setValue values
        "pm_1u" pm1) "pm_2u5" pm25) "pm_10u" pm10,
      ok := true, events := [] }
  | PMS5003Outcome.readTimeout =>
    { values := values, ok := false,
      events := [ Event.log LogLevel.error
        "Failed to read PMS5003 particulate matter sensor" ] }
  | PMS5003Outcome.ioError =>
    { values := values, ok := false,
      events := Event.log LogLevel.error
        "Could not get PMS5003 particulate matter readings. Resetting I2C." :: _reset_i2c }

-- sensors/core.py SensorCollection.update: the Python construct
-- all(sensor.update(values) for sensor in self._sensors) evaluates the
-- generator lazily, so it stops at the first member returning False.
def SensorCollection.update : List SensorUpdate → Values → UpdateResult
  | [], values => { values := values, ok := true, events := [] }
  | s :: rest, values =>
    let r := s values
    if r.ok then
      let r2 := SensorCollection.update rest r.values
      { values := r2.values, ok := r2.ok, events := r.events ++ r2.events }
    else
      { values := r.values, ok := false, events := r.events }

structure HwEnv where
  cpu : ℕ → ℚ
  bme : BME280Outcome
  ltr : LTR559Outcome
  mics : MICS6814Outcome
  pms : PMS5003Outcome

-- sensors/factory.py create_sensors (membership and order of the collection);
-- sensors/hw.py create_sensors builds the same list of update functions.
def create_sensors (env : HwEnv) (temperature_factor : Option ℚ) (enviro : Bool) :
    List SensorUpdate :=
  [ BME280Sensor.update temperature_factor env.cpu env.bme,
    LTR559Sensor.update env.ltr ]
    ++ (if enviro then [] else
      [ MICS6814Sensor.update env.mics, PMS5003Sensor.update env.pms ])

def BME280Outcome.success : BME280Outcome → Bool
  | BME280Outcome.reading _ _ _ => true
  | BME280Outcome.ioError => false

def LTR559Outcome.success : LTR559Outcome → Bool
  | LTR559Outcome.reading _ _ => true
  | LTR559Outcome.ioError => false

-- A member adapter of the aggregate: one of the four source adapter classes
-- together with the hardware outcome of its read in the current cycle.
inductive SensorInstance
  | bmeS (temperature_factor : Option ℚ) (cpu : ℕ → ℚ) (o : BME280Outcome)
  | ltrS (o : LTR559Outcome)
  | micsS (o : MICS6814Outcome)
  | pmsS (o : PMS5003Outcome)

def SensorInstance.run : SensorInstance → SensorUpdate
  | SensorInstance.bmeS f cpu o => BME280Sensor.update f cpu o
  | SensorInstance.ltrS o => LTR559Sensor.update o
  | SensorInstance.micsS o => MICS6814Sensor.update o
  | SensorInstance.pmsS o => PMS5003Sensor.update o

def SensorInstance.succeeds : SensorInstance → Bool
  | SensorInstance.bmeS _ _ (BME280Outcome.reading _ _ _) => true
  | SensorInstance.bmeS _ _ BME280Outcome.ioError => false
  | SensorInstance.ltrS (LTR559Outcome.reading _ _) => true
  | SensorInstance.ltrS LTR559Outcome.ioError => false
  | SensorInstance.micsS (MICS6814Outcome.reading _ _ _) => true
  | SensorInstance.micsS MICS6814Outcome.ioError => false
  | SensorInstance.pmsS (PMS5003Outcome.reading _ _ _) => true
  | SensorInstance.pmsS PMS5003Outcome.readTimeout => false
  | SensorInstance.pmsS PMS5003Outcome.ioError => false

def SensorInstance.ownKeys : SensorInstance → List String
  | SensorInstance.bmeS _ _ _ =>
    [ "temperature_celsius", "pressure_pascals", "relative_humidity" ]
  | SensorInstance.ltrS _ => [ "light_lux", "proximity_raw" ]
  | SensorInstance.micsS _ => [ "gas_red_ohms", "gas_ox_ohms", "gas_nh3_ohms" ]
  | SensorInstance.pmsS _ => [ "pm_1u", "pm_2u5", "pm_10u" ]

def gas_pm_keys : List String :=
  [ "gas_red_ohms", "gas_ox_ohms", "gas_nh3_ohms", "pm_1u", "pm_2u5", "pm_10u" ]

-- prometheus-enviro-exporter.py LoopRateLimiter.
structure LoopRateLimiter where
  period : ℚ
  time_ref : ℚ
  sleep_time : ℚ

def LoopRateLimiter.iteration_end (st : LoopRateLimiter) (time_real : ℚ) :
    LoopRateLimiter × ℚ :=
  let time_ref := st.time_ref + st.period
  ({ period := st.period,
     time_ref := max time_ref (time_real - 100 * st.period),
     sleep_time := time_ref - time_real }, time_real)

inductive RateLimiterChoice
  | limiter (st : LoopRateLimiter)
  | noLimiter

def create_loop_rate_limiter (period now0 : ℚ) : RateLimiterChoice :=
  if period > 0 then
    RateLimiterChoice.limiter { period := period, time_ref := now0, sleep_time := 0 }
  else
    RateLimiterChoice.noLimiter

-- The sleep call returns the blocking duration, or none for a no-op.
def RateLimiterChoice.sleepAction : RateLimiterChoice → Option ℚ
  | RateLimiterChoice.limiter st =>
    if st.sleep_time > 0 then some st.sleep_time else none
  | RateLimiterChoice.noLimiter => none

def RateLimiterChoice.iteration_end : RateLimiterChoice → ℚ → RateLimiterChoice × ℚ
  | RateLimiterChoice.limiter st, time_real =>
    let r := LoopRateLimiter.iteration_end st time_real
    (RateLimiterChoice.limiter r.1, r.2)
  | RateLimiterChoice.noLimiter, time_real => (RateLimiterChoice.noLimiter, time_real)

-- Reachable limiter states of the repeated cycle, paired with the clock value:
-- construction, then repeatedly a processing phase of duration d followed by
-- iteration_end and a sleep after which the clock has advanced by e, where e
-- is at least the positive part of the pending sleep duration.
inductive LoopReach (p : ℚ) : LoopRateLimiter → ℚ → Prop
  | init (t0 : ℚ) : LoopReach p { period := p, time_ref := t0, sleep_time := 0 } t0
  | step (st : LoopRateLimiter) (t d e : ℚ) :
      LoopReach p st t → 0 ≤ d →
      max (LoopRateLimiter.iteration_end st (t + d)).1.sleep_time 0 ≤ e →
      LoopReach p (LoopRateLimiter.iteration_end st (t + d)).1 (t + d + e)

-- Process-wide metric state of the orchestration loop.
structure Metrics where
  errorCounter : ℕ
  updateTime : ℚ
  gauges : Values

def prometheus_gauge_keys (enviro : Bool) : List String :=
  [ "temperature_celsius", "pressure_pascals", "relative_humidity",
    "light_lux", "proximity_raw" ]
    ++ (if enviro then [] else
      [ "gas_red_ohms", "gas_ox_ohms", "gas_nh3_ohms", "pm_1u", "pm_2u5", "pm_10u" ])

-- A direct dict index values[k] per gauge, in source order: the first absent
-- key raises KeyError, keeping the gauge writes made so far.
def setGauges (values : Values) : Values → List String → Values × Except String Unit
  | gauges, [] => (gauges, Except.ok ())
  | gauges, k :: rest =>
    match getValue? values k with
    | none => (gauges, Except.error ( "KeyError: " ++ k))
    | some v => setGauges values (setValue gauges k v) rest

-- exporters/update_prometheus_metrics and the identical inline block of the
-- main sensor reading loop (lines 248 and 254 to 271).
def update_prometheus_metrics (enviro : Bool) (values : Values) (sensor_error : Bool)
    (m : Metrics) : Metrics × Except String Unit :=
  let m1 := if sensor_error then { m with errorCounter := m.errorCounter + 1 } else m
  let r := setGauges values m1.gauges (prometheus_gauge_keys enviro)
  ({ m1 with gauges := r.1 }, r.2)

structure LoopCycleResult where
  metrics : Metrics
  rl : RateLimiterChoice
  crash : Option String
  sleepDuration : Option ℚ

-- One iteration of the main sensor reading loop (lines 244 to 276): fresh
-- empty values dict, aggregate update, error counter, gauge writes,
-- iteration_end, update-time counter, sleep. An uncaught KeyError is
-- modelled in the crash field; it aborts the iteration at the raise point.
def mainLoopBody (enviro : Bool) (sensors : List SensorUpdate) (m : Metrics)
    (rl : RateLimiterChoice) (update_start time_real : ℚ) : LoopCycleResult :=
  let u := SensorCollection.update sensors []
  let p := update_prometheus_metrics enviro u.values (!u.ok) m
  match p.2 with
  | Except.error e => { metrics := p.1, rl := rl, crash := some e, sleepDuration := none }
  | Except.ok _ =>
    let r := RateLimiterChoice.iteration_end rl time_real
    { metrics := { p.1 with updateTime := p.1.updateTime + (r.2 - update_start) },
      rl := r.1, crash := none, sleepDuration := RateLimiterChoice.sleepAction r.1 }

def pmsTimeoutEnv : HwEnv :=
  { cpu := fun _ => 50, bme := BME280Outcome.reading 25 1000 40,
    ltr := LTR559Outcome.reading 100 3, mics := MICS6814Outcome.reading 11 12 13,
    pms := PMS5003Outcome.readTimeout }

def allOkEnv : HwEnv :=
  { cpu := fun _ => 50, bme := BME280Outcome.reading 25 1000 40,
    ltr := LTR559Outcome.reading 100 3, mics := MICS6814Outcome.reading 11 12 13,
    pms := PMS5003Outcome.reading 7 8 9 }

def pmsTimeoutCycle : LoopCycleResult :=
  mainLoopBody false (create_sensors pmsTimeoutEnv none false)
    { errorCounter := 0, updateTime := 0, gauges := [] }
    (RateLimiterChoice.limiter { period := 5, time_ref := 0, sleep_time := 0 }) 0 1

def allOkCycle : LoopCycleResult :=
  mainLoopBody false (create_sensors allOkEnv none false)
    { errorCounter := 0, updateTime := 0, gauges := [] }
    (RateLimiterChoice.limiter { period := 5, time_ref := 0, sleep_time := 0 }) 0 1

-- Aggregate update of one cycle in which only the particulate read times out.
def pmsTimeoutAggregate (cpu : ℕ → ℚ) (f : Option ℚ)
    (tb pb hb lux prox red ox nh3 : ℚ) : UpdateResult :=
  SensorCollection.update (create_sensors
    { cpu := cpu, bme := BME280Outcome.reading tb pb hb,
      ltr := LTR559Outcome.reading lux prox,
      mics := MICS6814Outcome.reading red ox nh3,
      pms := PMS5003Outcome.readTimeout } f false) []

theorem getValue?_setValue (m : Values) (k k' : String) (v : ℚ) :
    getValue? (setValue m k v) k' = if k = k' then some v else getValue? m k' := by
  induction m with
  | nil => simp [setValue, getValue?]
  | cons a rest ih =>
    obtain ⟨ka, va⟩ := a
    by_cases hak : ka = k
    · subst hak
      simp [setValue, getValue?]
      by_cases hkk' : ka = k' <;> simp [hkk']
    · simp only [setValue, if_neg hak, getValue?]
      by_cases hak' : ka = k'
      · subst hak'
        have hkk' : ¬ k = ka := fun h => hak h.symm
        simp [if_neg hkk', getValue?]
      · simp [if_neg hak', ih]

theorem hasKey_setValue (m : Values) (k k' : String) (v : ℚ) :
    hasKey (setValue m k v) k' = if k = k' then true else hasKey m k' := by
  simp only [hasKey, getValue?_setValue]
  by_cases h : k = k' <;> simp [h]

theorem hasKey_setValue_of (m : Values) (k k' : String) (v : ℚ)
    (h : hasKey m k' = true) : hasKey (setValue m k v) k' = true := by
  rw [hasKey_setValue]
  by_cases hkk : k = k' <;> simp [hkk, h]

theorem hasKey_setValue_self (m : Values) (k : String) (v : ℚ) :
    hasKey (setValue m k v) k = true := by
  rw [hasKey_setValue]
  simp

theorem SensorInstance.run_ok (s : SensorInstance) (vs : Values) :
    (s.run vs).ok = s.succeeds := by
  cases s with
  | bmeS f cpu o => cases o <;> rfl
  | ltrS o => cases o <;> rfl
  | micsS o => cases o <;> rfl
  | pmsS o => cases o <;> rfl

theorem SensorInstance.run_preserves (s : SensorInstance) (vs : Values) (k : String)
    (h : hasKey vs k = true) : hasKey (s.run vs).values k = true := by
  cases s with
  | bmeS f cpu o =>
    cases o with
    | reading t p hm =>
      simp only [SensorInstance.run, BME280Sensor.update]
      exact hasKey_setValue_of _ _ _ _ (hasKey_setValue_of _ _ _ _ (hasKey_setValue_of _ _ _ _ h))
    | ioError => exact h
  | ltrS o =>
    cases o with
    | reading lux prox =>
      simp only [SensorInstance.run, LTR559Sensor.update]
      exact hasKey_setValue_of _ _ _ _ (hasKey_setValue_of _ _ _ _ h)
    | ioError => exact h
  | micsS o =>
    cases o with
    | reading a b c =>
      simp only [SensorInstance.run, MICS6814Sensor.update]
      exact hasKey_setValue_of _ _ _ _ (hasKey_setValue_of _ _ _ _ (hasKey_setValue_of _ _ _ _ h))
    | ioError => exact h
  | pmsS o =>
    cases o with
    | reading a b c =>
      simp only [SensorInstance.run, PMS5003Sensor.update]
      exact hasKey_setValue_of _ _ _ _ (hasKey_setValue_of _ _ _ _ (hasKey_setValue_of _ _ _ _ h))
    | readTimeout => exact h
    | ioError => exact h

theorem SensorInstance.run_writes (s : SensorInstance) (vs : Values) (k : String)
    (hs : s.succeeds = true) (hk : k ∈ s.ownKeys) :
    hasKey (s.run vs).values k = true := by
  cases s with
  | bmeS f cpu o =>
    cases o with
    | reading t p hm =>
      simp [SensorInstance.ownKeys] at hk
      simp only [SensorInstance.run, BME280Sensor.update]
      rcases hk with hk | hk | hk
      · subst hk
        exact hasKey_setValue_of _ _ _ _ (hasKey_setValue_of _ _ _ _ (hasKey_setValue_self _ _ _))
      · subst hk
        exact hasKey_setValue_of _ _ _ _ (hasKey_setValue_self _ _ _)
      · subst hk
        exact hasKey_setValue_self _ _ _
    | ioError => simp [SensorInstance.succeeds] at hs
  | ltrS o =>
    cases o with
    | reading lux prox =>
      simp [SensorInstance.ownKeys] at hk
      simp only [SensorInstance.run, LTR559Sensor.update]
      rcases hk with hk | hk
      · subst hk
        exact hasKey_setValue_of _ _ _ _ (hasKey_setValue_self _ _ _)
      · subst hk
        exact hasKey_setValue_self _ _ _
    | ioError => simp [SensorInstance.succeeds] at hs
  | micsS o =>
    cases o with
    | reading a b c =>
      simp [SensorInstance.ownKeys] at hk
      simp only [SensorInstance.run, MICS6814Sensor.update]
      rcases hk with hk | hk | hk
      · subst hk
        exact hasKey_setValue_of _ _ _ _ (hasKey_setValue_of _ _ _ _ (hasKey_setValue_self _ _ _))
      · subst hk
        exact hasKey_setValue_of _ _ _ _ (hasKey_setValue_self _ _ _)
      · subst hk
        exact hasKey_setValue_self _ _ _
    | ioError => simp [SensorInstance.succeeds] at hs
  | pmsS o =>
    cases o with
    | reading a b c =>
      simp [SensorInstance.ownKeys] at hk
      simp only [SensorInstance.run, PMS5003Sensor.update]
      rcases hk with hk | hk | hk
      · subst hk
        exact hasKey_setValue_of _ _ _ _ (hasKey_setValue_of _ _ _ _ (hasKey_setValue_self _ _ _))
      · subst hk
        exact hasKey_setValue_of _ _ _ _ (hasKey_setValue_self _ _ _)
      · subst hk
        exact hasKey_setValue_self _ _ _
    | readTimeout => simp [SensorInstance.succeeds] at hs
    | ioError => simp [SensorInstance.succeeds] at hs

theorem collection_ok_eq_all (ss : List SensorInstance) (vs : Values) :
    (SensorCollection.update (ss.map SensorInstance.run) vs).ok
      = ss.all SensorInstance.succeeds := by
  induction ss generalizing vs with
  | nil => rfl
  | cons s rest ih =>
    simp only [List.map_cons, SensorCollection.update, List.all_cons]
    rw [SensorInstance.run_ok]
    cases hs : s.succeeds with
    | false => simp
    | true => simp [ih]

theorem collection_preserves (ss : List SensorInstance) (vs : Values) (k : String)
    (h : hasKey vs k = true) :
    hasKey (SensorCollection.update (ss.map SensorInstance.run) vs).values k = true := by
  induction ss generalizing vs with
  | nil => exact h
  | cons s rest ih =>
    simp only [List.map_cons, SensorCollection.update]
    cases hok : (s.run vs).ok with
    | false => simpa [hok] using SensorInstance.run_preserves s vs k h
    | true =>
      simp only [hok, if_pos]
      exact ih _ (SensorInstance.run_preserves s vs k h)

theorem collection_writes_prefix :
    ∀ (ss : List SensorInstance) (vs : Values) (s : SensorInstance) (k : String),
      s ∈ ss.takeWhile SensorInstance.succeeds → k ∈ s.ownKeys →
      hasKey (SensorCollection.update (ss.map SensorInstance.run) vs).values k = true
  | [], _, s, k, hmem, _ => by simp [List.takeWhile] at hmem
  | a :: rest, vs, s, k, hmem, hk => by
    cases ha : a.succeeds with
    | false => simp [List.takeWhile_cons, ha] at hmem
    | true =>
      rw [List.takeWhile_cons, if_pos ha] at hmem
      simp only [List.mem_cons] at hmem
      have hok : (a.run vs).ok = true := by rw [SensorInstance.run_ok]; exact ha
      simp only [List.map_cons, SensorCollection.update, hok, if_pos]
      rcases hmem with hmem | hmem
      · subst hmem
        exact collection_preserves rest _ k (SensorInstance.run_writes s vs k ha hk)
      · exact collection_writes_prefix rest _ s k hmem hk

theorem loopReach_invariant (p : ℚ) (hp : 0 < p) (st : LoopRateLimiter) (t : ℚ)
    (h : LoopReach p st t) : st.period = p ∧ st.time_ref ≤ t := by
  induction h with
  | init t0 => exact ⟨rfl, le_refl t0⟩
  | step st t d e hr hd he ih =>
    obtain ⟨hper, href⟩ := ih
    constructor
    · simp [LoopRateLimiter.iteration_end, hper]
    · have hsleep : st.time_ref + st.period - (t + d)
          ≤ max (st.time_ref + st.period - (t + d)) 0 := le_max_left _ _
      have h0 : (0:ℚ) ≤ max (st.time_ref + st.period - (t + d)) 0 := le_max_right _ _
      simp only [LoopRateLimiter.iteration_end] at he ⊢
      rw [max_le_iff]
      constructor
      · linarith [le_trans hsleep he]
      · have : (0:ℚ) ≤ e := le_trans h0 he
        have : (0:ℚ) < 100 * p := by linarith
        rw [hper]
        linarith

/-- C1 counterexample: in the aggregate built from a failing light adapter
followed by a succeeding gas adapter, the gas adapter would succeed and write
its key when invoked, yet after the aggregate update the key is absent,
because the lazily evaluated all(...) stops at the first failure. -/
theorem C1_counterexample :
    (SensorInstance.micsS (MICS6814Outcome.reading 1 2 3)).succeeds = true ∧
    hasKey ((SensorInstance.micsS (MICS6814Outcome.reading 1 2 3)).run []).values
      "gas_red_ohms" = true ∧
    (SensorCollection.update
      [ (SensorInstance.ltrS LTR559Outcome.ioError).run,
        (SensorInstance.micsS (MICS6814Outcome.reading 1 2 3)).run ] []).ok = false ∧
    hasKey (SensorCollection.update
      [ (SensorInstance.ltrS LTR559Outcome.ioError).run,
        (SensorInstance.micsS (MICS6814Outcome.reading 1 2 3)).run ] []).values
      "gas_red_ohms" = false := by
  exact ⟨rfl, rfl, rfl, rfl⟩

/-- C1 (amended): the aggregate update invokes member adapters in construction
order but stops at the first failure; it returns true iff every member
succeeds; keys already in the map are never removed (no rollback), and every
adapter in the prefix of succeeding members before the first failure has its
keys present in the output map. Adapters after the first failure are not
invoked (see the counterexample). -/
theorem C1_collection_update (sensors : List SensorInstance) (vs : Values)
    (k : String) (s : SensorInstance) :
    ((SensorCollection.update (sensors.map SensorInstance.run) vs).ok
        = sensors.all SensorInstance.succeeds) ∧
    (hasKey vs k = true →
      hasKey (SensorCollection.update (sensors.map SensorInstance.run) vs).values k
        = true) ∧
    (s ∈ sensors.takeWhile SensorInstance.succeeds → k ∈ s.ownKeys →
      hasKey (SensorCollection.update (sensors.map SensorInstance.run) vs).values k
        = true) :=
  ⟨collection_ok_eq_all sensors vs,
   fun h => collection_preserves sensors vs k h,
   fun hmem hk => collection_writes_prefix sensors vs s k hmem hk⟩

theorem C1_collection_update_witness :
    hasKey (SensorCollection.update
      [ (SensorInstance.ltrS (LTR559Outcome.reading 7 8)).run ]
      [ ("temperature_celsius", 25) ]).values "temperature_celsius" = true ∧
    hasKey (SensorCollection.update
      [ (SensorInstance.ltrS (LTR559Outcome.reading 7 8)).run ]
      [ ("temperature_celsius", 25) ]).values "light_lux" = true :=
  ⟨(C1_collection_update [ SensorInstance.ltrS (LTR559Outcome.reading 7 8) ]
      [ ("temperature_celsius", 25) ] "temperature_celsius"
      (SensorInstance.ltrS (LTR559Outcome.reading 7 8))).2.1 rfl,
   (C1_collection_update [ SensorInstance.ltrS (LTR559Outcome.reading 7 8) ]
      [ ("temperature_celsius", 25) ] "light_lux"
      (SensorInstance.ltrS (LTR559Outcome.reading 7 8))).2.2
      (by simp [List.takeWhile_cons, SensorInstance.succeeds])
      (by simp [SensorInstance.ownKeys])⟩

/-- C4: with period p greater than 0, iteration_end computes the pending sleep
as reference plus period minus the current time, advances the reference to the
maximum of reference plus period and now minus 100 times the period, and hence
after any single cycle the stored reference lags the observed real time by at
most 100 times the period. -/
theorem C4_iteration_end_drift_cap (st : LoopRateLimiter) (time_real : ℚ)
    (hp : 0 < st.period) :
    (LoopRateLimiter.iteration_end st time_real).1.sleep_time
        = st.time_ref + st.period - time_real ∧
    (LoopRateLimiter.iteration_end st time_real).1.time_ref
        = max (st.time_ref + st.period) (time_real - 100 * st.period) ∧
    time_real - (LoopRateLimiter.iteration_end st time_real).1.time_ref
        ≤ 100 * st.period := by
  refine ⟨rfl, rfl, ?_⟩
  have h := le_max_right (st.time_ref + st.period) (time_real - 100 * st.period)
  simp only [LoopRateLimiter.iteration_end]
  linarith [h]

theorem C4_iteration_end_drift_cap_witness :
    (0:ℚ) < 1 ∧
    (500:ℚ) - (LoopRateLimiter.iteration_end
      { period := 1, time_ref := 0, sleep_time := 0 } 500).1.time_ref ≤ 100 * 1 :=
  ⟨by norm_num,
   (C4_iteration_end_drift_cap { period := 1, time_ref := 0, sleep_time := 0 } 500
     (by norm_num)).2.2⟩

/-- C8: the compensation formula of enviroplus_exporter.py, temperature minus
the quotient of avg minus temperature by the factor, and the formula of
sensors/hw.py, the quotient of temperature minus avg times factor by one minus
factor, disagree at some raw temperature, CPU average and factor in the open
interval from 0 to 1. -/
theorem C8_compensation_formulas_differ :
    ∃ t avg f : ℚ, 0 < f ∧ f < 1 ∧
      update_weather_sensor_compensation t avg f ≠ bme280_compensation t avg f := by
  refine ⟨30, 50, 1/2, by norm_num, by norm_num, ?_⟩
  norm_num [update_weather_sensor_compensation, bme280_compensation]

/-- C9: when the configured period is nonpositive the no-op limiter is chosen
and its sleep never blocks; the fixed-period limiter is chosen for a positive
period, and its sleep call blocks exactly when the pending sleep duration is
strictly positive, for exactly that duration, and is a no-op otherwise. -/
theorem C9_sleep_safety (period now0 d : ℚ) (st : LoopRateLimiter) :
    (period ≤ 0 → create_loop_rate_limiter period now0 = RateLimiterChoice.noLimiter) ∧
    (0 < period → create_loop_rate_limiter period now0
        = RateLimiterChoice.limiter { period := period, time_ref := now0, sleep_time := 0 }) ∧
    RateLimiterChoice.sleepAction RateLimiterChoice.noLimiter = none ∧
    (RateLimiterChoice.sleepAction (RateLimiterChoice.limiter st) = some d →
      0 < d ∧ d = st.sleep_time) ∧
    (st.sleep_time ≤ 0 →
      RateLimiterChoice.sleepAction (RateLimiterChoice.limiter st) = none) := by
  refine ⟨?_, ?_, rfl, ?_, ?_⟩
  · intro h
    simp [create_loop_rate_limiter, not_lt.mpr h]
  · intro h
    simp [create_loop_rate_limiter, h]
  · intro h
    by_cases hs : st.sleep_time > 0
    · simp only [RateLimiterChoice.sleepAction, if_pos hs, Option.some.injEq] at h
      exact ⟨h ▸ hs, h.symm⟩
    · simp [RateLimiterChoice.sleepAction, hs] at h
  · intro h
    simp [RateLimiterChoice.sleepAction, not_lt.mpr h]

theorem C9_sleep_safety_witness :
    create_loop_rate_limiter (-1) 0 = RateLimiterChoice.noLimiter ∧
    (0:ℚ) < 2 :=
  ⟨(C9_sleep_safety (-1) 0 2 { period := 1, time_ref := 0, sleep_time := 2 }).1
      (by norm_num),
   ((C9_sleep_safety (-1) 0 2 { period := 1, time_ref := 0, sleep_time := 2 }).2.2.2.1
      (by decide)).1⟩

/-- C10: for the fixed-period limiter with period p greater than 0, under a
non-decreasing clock where each sleep advances the clock by at least the
positive part of the pending sleep, in every reachable state of the repeated
cycle the sleep duration computed by iteration_end is at most p. -/
theorem C10_sleep_bounded (p : ℚ) (st : LoopRateLimiter) (t d : ℚ)
    (hp : 0 < p) (hr : LoopReach p st t) (hd : 0 ≤ d) :
    (LoopRateLimiter.iteration_end st (t + d)).1.sleep_time ≤ p := by
  obtain ⟨hper, href⟩ := loopReach_invariant p hp st t hr
  simp only [LoopRateLimiter.iteration_end]
  rw [hper]
  linarith

theorem C10_sleep_bounded_witness :
    (LoopRateLimiter.iteration_end
      { period := 1, time_ref := 0, sleep_time := 0 } (0 + 0)).1.sleep_time ≤ 1 :=
  C10_sleep_bounded 1 { period := 1, time_ref := 0, sleep_time := 0 } 0 0
    (by norm_num) (LoopReach.init 0) (le_refl 0)

/-- C3: with a configured factor f in the interval from 0 inclusive to 1
exclusive, a nonzero f makes the temperature adapter output exactly the raw
reading minus the CPU average times f, divided by 1 minus f, where the CPU
average is the mean of the five CPU temperature samples; factor 0 or an unset
factor disables compensation and the raw reading is passed through. -/
theorem C3_temperature_compensation (t p h f : ℚ) (cpu : ℕ → ℚ)
    (hf0 : 0 ≤ f) (hf1 : f < 1) :
    (f ≠ 0 → getValue? (BME280Sensor.update (some f) cpu
        (BME280Outcome.reading t p h) []).values "temperature_celsius"
      = some ((t - avg_cpu_temp cpu * f) / (1 - f))) ∧
    getValue? (BME280Sensor.update (some 0) cpu
        (BME280Outcome.reading t p h) []).values "temperature_celsius" = some t ∧
    getValue? (BME280Sensor.update none cpu
        (BME280Outcome.reading t p h) []).values "temperature_celsius" = some t := by
  refine ⟨?_, by rfl, by rfl⟩
  intro hf
  simp [BME280Sensor.update, bme280_compensation, setValue, getValue?, hf]

theorem C3_temperature_compensation_witness :
    (0:ℚ) ≤ 1/2 ∧ (1:ℚ)/2 < 1 ∧
    getValue? (BME280Sensor.update (some (1/2)) (fun _ => 50)
        (BME280Outcome.reading 30 2 3) []).values "temperature_celsius"
      = some ((30 - avg_cpu_temp (fun _ => 50) * (1/2)) / (1 - 1/2)) :=
  ⟨by norm_num, by norm_num,
   (C3_temperature_compensation 30 2 3 (1/2) (fun _ => 50) (by norm_num)
      (by norm_num)).1 (by norm_num)⟩

/-- C5 counterexample: at the device-specific read timeout the particulate
adapter emits no warning-level log entry; the log entry it emits is at error
level, refuting the claim that a warning is logged. -/
theorem C5_counterexample :
    ((PMS5003Sensor.update PMS5003Outcome.readTimeout []).events.any
      Event.isWarningLog) = false ∧
    ((PMS5003Sensor.update PMS5003Outcome.readTimeout []).events.any
      Event.isErrorLog) = true := by decide

/-- C5 (amended): on the device-specific read timeout the particulate adapter
logs at error level (not warning level), does not trigger bus recovery,
leaves the pm keys absent and returns false; in an aggregate cycle where only
this failure occurs the aggregate returns false, every other adapter key is
present, and the only event of the cycle is that error log, so no bus
recovery happens; the general bus error case, by contrast, does trigger bus
recovery. -/
theorem C5_pms_timeout (vs : Values) (cpu : ℕ → ℚ) (f : Option ℚ)
    (tb pb hb lux prox red ox nh3 : ℚ) :
    (PMS5003Sensor.update PMS5003Outcome.readTimeout vs).ok = false ∧
    (PMS5003Sensor.update PMS5003Outcome.readTimeout vs).values = vs ∧
    (PMS5003Sensor.update PMS5003Outcome.readTimeout vs).events
      = [ Event.log LogLevel.error "Failed to read PMS5003 particulate matter sensor" ] ∧
    ((PMS5003Sensor.update PMS5003Outcome.ioError vs).events.contains Event.resetI2C)
      = true ∧
    (pmsTimeoutAggregate cpu f tb pb hb lux prox red ox nh3).ok = false ∧
    hasKey (pmsTimeoutAggregate cpu f tb pb hb lux prox red ox nh3).values "pm_1u"
      = false ∧
    hasKey (pmsTimeoutAggregate cpu f tb pb hb lux prox red ox nh3).values "pm_2u5"
      = false ∧
    hasKey (pmsTimeoutAggregate cpu f tb pb hb lux prox red ox nh3).values "pm_10u"
      = false ∧
    hasKey (pmsTimeoutAggregate cpu f tb pb hb lux prox red ox nh3).values
      "temperature_celsius" = true ∧
    hasKey (pmsTimeoutAggregate cpu f tb pb hb lux prox red ox nh3).values
      "pressure_pascals" = true ∧
    hasKey (pmsTimeoutAggregate cpu f tb pb hb lux prox red ox nh3).values
      "relative_humidity" = true ∧
    hasKey (pmsTimeoutAggregate cpu f tb pb hb lux prox red ox nh3).values
      "light_lux" = true ∧
    hasKey (pmsTimeoutAggregate cpu f tb pb hb lux prox red ox nh3).values
      "proximity_raw" = true ∧
    hasKey (pmsTimeoutAggregate cpu f tb pb hb lux prox red ox nh3).values
      "gas_red_ohms" = true ∧
    hasKey (pmsTimeoutAggregate cpu f tb pb hb lux prox red ox nh3).values
      "gas_ox_ohms" = true ∧
    hasKey (pmsTimeoutAggregate cpu f tb pb hb lux prox red ox nh3).values
      "gas_nh3_ohms" = true ∧
    (pmsTimeoutAggregate cpu f tb pb hb lux prox red ox nh3).events
      = [ Event.log LogLevel.error "Failed to read PMS5003 particulate matter sensor" ] := by
  exact ⟨rfl, rfl, rfl, rfl, rfl, rfl, rfl, rfl, rfl, rfl, rfl, rfl, rfl, rfl, rfl,
    rfl, rfl⟩

/-- C6: with the device-variant flag set the aggregate contains exactly the
weather and light adapters in construction order; the produced snapshot never
contains a gas or particulate key; the overall success flag equals the
conjunction of the weather and light adapter results; with the flag unset the
gas and particulate adapters are additionally included. -/
theorem C6_enviro_variant (env : HwEnv) (f : Option ℚ) :
    create_sensors env f true
      = [ BME280Sensor.update f env.cpu env.bme, LTR559Sensor.update env.ltr ] ∧
    create_sensors env f false
      = [ BME280Sensor.update f env.cpu env.bme, LTR559Sensor.update env.ltr,
          MICS6814Sensor.update env.mics, PMS5003Sensor.update env.pms ] ∧
    (gas_pm_keys.all fun k =>
      !hasKey (SensorCollection.update (create_sensors env f true) []).values k)
      = true ∧
    (SensorCollection.update (create_sensors env f true) []).ok
      = (env.bme.success && env.ltr.success) := by
  obtain ⟨cpu, bme, ltr, mics, pms⟩ := env
  refine ⟨rfl, rfl, ?_, ?_⟩ <;> cases bme <;> cases ltr <;> rfl

/-- C2 is refuted by the code: in a cycle where only the particulate sensor
fails with its read timeout, the forwarding of the snapshot to the
pull-metrics sink writes every gauge of the non-failed sensors and then
raises an uncaught KeyError at the first absent key, so missing keys are not
tolerated and the loop does not continue; a cycle with no failure completes
without raising. -/
theorem C2_missing_keys_crash :
    pmsTimeoutCycle.crash = some "KeyError: pm_1u" ∧
    getValue? pmsTimeoutCycle.metrics.gauges "temperature_celsius" = some 25 ∧
    getValue? pmsTimeoutCycle.metrics.gauges "light_lux" = some 100 ∧
    getValue? pmsTimeoutCycle.metrics.gauges "gas_red_ohms" = some 11 ∧
    getValue? pmsTimeoutCycle.metrics.gauges "pm_1u" = none ∧
    allOkCycle.crash = none := by decide

/-- C7 is refuted by the code on failing cycles: in a cycle whose aggregate
update returns false the error counter increments by exactly 1, but the loop
then raises an uncaught KeyError before reaching iteration_end, so the
cumulative update-time counter does not increase and the process terminates;
in a fully successful cycle the error counter is unchanged and the
update-time counter increases by the cycle end time minus its start time. -/
theorem C7_counters_on_cycles :
    allOkCycle.metrics.errorCounter = 0 ∧
    allOkCycle.metrics.updateTime = 0 + (1 - 0) ∧
    allOkCycle.crash = none ∧
    pmsTimeoutCycle.metrics.errorCounter = 1 ∧
    pmsTimeoutCycle.metrics.updateTime = 0 ∧
    pmsTimeoutCycle.crash = some "KeyError: pm_1u" :=
  ⟨rfl, rfl, rfl, rfl, rfl, rfl⟩
